import Mathlib

/-!
Shallow embedding of src/app1.py, a small Streamlit application that
generates LinkedIn posts and matching images through an external OpenAI
client and loads its topic and style catalogs from a Snowflake
warehouse.  Streamlit session state is modelled as an explicit record
threaded through the handlers, and the external client as a record of
response functions.  A run of a handler returns the new session state,
the trace of external calls it made, and whether an exception escaped
the handler (Python exceptions are not caught in app1.py, and state
mutations made before the raise persist).
-/

/-- Names the three operations of the external generation client
(module oai), together with the prompt each was invoked on. -/
inductive ApiCall where
  | moderate (text : String)
  | complete (prompt : String)
  | image (prompt : String)
deriving DecidableEq

/-- The external generation client, interface only (oai.Openai).  Each
operation may fail: an exception raised on the Python side is an error
value here.  The temperature and max token arguments that generate_image
passes to complete do not change which prompt is sent, so they are not
modelled. -/
structure Openai where
  moderate : String → Except String Bool
  complete : String → Except String String
  image : String → Except String String

/-- Streamlit session state fields used by app1.py (lines 96 to 107). -/
structure SessionState where
  post : String
  image : String
  text_error : String
  image_error : String
  feeling_lucky : Bool
  n_requests : Nat
deriving DecidableEq

/-- Initial session state (lines 96 to 107 of app1.py): every key is
absent on the first run, so every field gets its default. -/
def initState : SessionState :=
  { post := "", image := "", text_error := "", image_error := ""
  , feeling_lucky := false, n_requests := 0 }

/-- Result of one handler run: the session state after the run, the
external calls made during it in order, and whether an exception escaped
the handler. -/
structure RunOut where
  state : SessionState
  calls : List ApiCall
  raised : Bool

/-- Word characters of the hashtag pattern on line 74 of app1.py,
that is the character class A to Z, a to z, 0 to 9 and underscore. -/
def isWordChar (c : Char) : Bool := c.isAlpha || c.isDigit || c == '_'

/-- Whether a character list starts with a word character, which is
exactly when the hashtag pattern matches right after a hash sign. -/
def headIsWord : List Char → Bool
  | [] => false
  | c :: _ => isWordChar c

/-- Left-to-right scan implementing re.sub of line 74 with the pattern
hash-sign-then-one-or-more-word-characters and an empty replacement.
The flag deleting is true while the scan is inside the word-character
run of a match currently being removed; matching is leftmost and the
word-character run is consumed greedily, as in Python re. -/
def stripHashtagsGo : Bool → List Char → List Char
  | _, [] => []
  | deleting, c :: rest =>
      if deleting && isWordChar c then stripHashtagsGo true rest
      else if c == '#' && headIsWord rest then stripHashtagsGo true rest
      else c :: stripHashtagsGo false rest

/-- Line 74 of app1.py: prompt_wo_hashtags, the post text with every
hashtag occurrence removed. -/
def stripHashtags (s : String) : String := ⟨stripHashtagsGo false s.toList⟩

/-- True when the character list still contains an occurrence of the
hashtag pattern, that is a hash sign immediately followed by a word
character. -/
def hasHashtagMatch : List Char → Bool
  | [] => false
  | c :: rest => (c == '#' && headIsWord rest) || hasHashtagMatch rest

/-- Python str.strip with no arguments: drop whitespace from both ends
(used on the completion replies, lines 55 and 83). -/
def pyStrip (s : String) : String :=
  ⟨((s.toList.dropWhile Char.isWhitespace).reverse.dropWhile Char.isWhitespace).reverse⟩

/-- Python str.replace of a double quote by the empty string, that is
removal of every double quote character (lines 55 and 84). -/
def stripQuotes (s : String) : String := ⟨s.toList.filter (fun c => !(c == '"'))⟩

/-- The cleanup both handlers apply to a completion reply: strip
whitespace, then remove double quotes. -/
def cleanReply (r : String) : String := stripQuotes (pyStrip r)

/-- Python split on a period followed by indexing at zero: the longest
prefix holding no period (line 85). -/
def firstSegment (s : String) : String := ⟨s.toList.takeWhile (fun c => !(c == '.'))⟩

/-- Lines 79 to 87 of app1.py: the prompt actually sent to the image
operation, namely the first period-delimited segment of the cleaned
completion reply with a period appended. -/
def processedPrompt (reply : String) : String := firstSegment (cleanReply reply) ++ "."

/-- Lines 40 and 41 of generate_text: the text prompt f-string.  The
interpolated style clause carries its own trailing space and the
template has another space before the word LinkedIn, and the template
separates the topic from the hashtag instruction by a colon, two
newlines and a space. -/
def buildTextPrompt (topic style : String) : String :=
  "Write a " ++ (if style ≠ "" then style ++ " " else "")
    ++ " LinkedIn Post about the Snowflake data platform feature " ++ topic
    ++ ":\n\n include the hashtags datasuperhero and masteringsnowflake"

/-- Modelled from the spec, sections 4.2 and 8: the template the spec
asserts for the text prompt, where the style clause is the style
followed by one space and is omitted entirely when the style is empty,
and a single colon and space separate the topic from the hashtag
instruction.  Kept only to compare against buildTextPrompt. -/
def buildTextPromptSpec (topic style : String) : String :=
  "Write a " ++ (if style ≠ "" then style ++ " " else "")
    ++ "LinkedIn Post about the Snowflake data platform feature " ++ topic
    ++ ": include the hashtags datasuperhero and masteringsnowflake"

/-- Lines 75 to 78 of app1.py: processing_prompt, built from the post
text with hashtags stripped. -/
def imageProcessingPrompt (postText : String) : String :=
  "In less than 300 words create a detailed but brief description of an image that captures the essence of the following text:\n"
    ++ stripHashtags postText ++ "\n\n"

/-- Lines 22 to 60 of app1.py, generate_text, flattened per control
path with the session state mutations applied in source order. -/
def generate_text (api : Openai) (s : SessionState) (topic style : String) : RunOut :=
  if s.n_requests ≥ 5 then
    { state := { s with
        text_error := "Too many requests. Please wait a few seconds before generating another post."
      , n_requests := 1 }
    , calls := [], raised := false }
  else if topic = "" then
    { state := { s with post := "", image := "", text_error := "Please enter a topic" }
    , calls := [], raised := false }
  else
    match api.moderate (buildTextPrompt topic style) with
    | .error _ =>
        { state := { s with post := "", image := "", text_error := "" }
        , calls := [ApiCall.moderate (buildTextPrompt topic style)], raised := true }
    | .ok true =>
        { state := { s with post := "", image := "", text_error := "Input flagged as inappropriate." }
        , calls := [ApiCall.moderate (buildTextPrompt topic style)], raised := false }
    | .ok false =>
        match api.complete (buildTextPrompt topic style) with
        | .error _ =>
            { state := { s with post := "", image := "", text_error := "", n_requests := s.n_requests + 1 }
            , calls := [ApiCall.moderate (buildTextPrompt topic style), ApiCall.complete (buildTextPrompt topic style)]
            , raised := true }
        | .ok reply =>
            { state := { s with post := cleanReply reply, image := "", text_error := "", n_requests := s.n_requests + 1 }
            , calls := [ApiCall.moderate (buildTextPrompt topic style), ApiCall.complete (buildTextPrompt topic style)]
            , raised := false }

/-- Lines 63 to 90 of app1.py, generate_image, flattened per control
path with the session state mutations applied in source order.  The
counter increment on line 88 happens after the completion call but
before the image call. -/
def generate_image (api : Openai) (s : SessionState) (prompt : String) : RunOut :=
  if s.n_requests ≥ 5 then
    { state := { s with
        text_error := "Too many requests. Please wait a few seconds before generating another text or image."
      , n_requests := 1 }
    , calls := [], raised := false }
  else
    match api.complete (imageProcessingPrompt prompt) with
    | .error _ =>
        { state := s, calls := [ApiCall.complete (imageProcessingPrompt prompt)], raised := true }
    | .ok reply =>
        match api.image (processedPrompt reply) with
        | .error _ =>
            { state := { s with n_requests := s.n_requests + 1 }
            , calls := [ApiCall.complete (imageProcessingPrompt prompt), ApiCall.image (processedPrompt reply)]
            , raised := true }
        | .ok url =>
            { state := { s with n_requests := s.n_requests + 1, image := url }
            , calls := [ApiCall.complete (imageProcessingPrompt prompt), ApiCall.image (processedPrompt reply)]
            , raised := false }

/-- A row returned by the warehouse query.  Indexing a row at zero in
the source presupposes at least one column; a missing entry reads as the
empty string here. -/
abbrev Row := List String

/-- Process-wide state of the st.cache_data decorator on load_sf_data,
modelled by its documented contract: results are memoized per argument.
The field queries lists the external queries actually executed, in
order. -/
structure CacheState where
  cache : List (String × List Row)
  queries : List String
deriving DecidableEq

/-- Lookup in the memo table. -/
def findCache : List (String × List Row) → String → Option (List Row)
  | [], _ => none
  | (k, v) :: rest, n => if k = n then some v else findCache rest n

/-- Lines 130 to 136 of app1.py: load_sf_data under the st.cache_data
decorator.  The argument db is the external warehouse: db name stands
for session.table(name).collect(), the rows of the named table.  On a
cache miss the query runs and the result is memoized; on a hit no
external query happens. -/
def load_sf_data (db : String → List Row) (cs : CacheState) (name : String) :
    List Row × CacheState :=
  match findCache cs.cache name with
  | some rows => (rows, cs)
  | none =>
      (db name, { cache := (name, db name) :: cs.cache, queries := cs.queries ++ [name] })

/-- Lines 140 to 144 of app1.py: load a table and keep the first column
of every row (the comprehension indexing each row at zero). -/
def loadColumn (db : String → List Row) (cs : CacheState) (name : String) :
    List String × CacheState :=
  ((load_sf_data db cs name).1.map (fun r => r.headD ""), (load_sf_data db cs name).2)

/-- Python random.choice applied to a string returns one of its
characters as a one-character string; the random draw is modelled by an
index reduced modulo the length (random.choice raises on an empty
sequence, modelled here by a space default). -/
def randomChoice (s : String) (i : Nat) : String :=
  String.singleton (s.toList.getD (i % s.toList.length) ' ')

/-- Lines 184 to 197 of app1.py: the arguments the Regenerate text
button passes to generate_text.  The values topic and style here are
the single strings returned by the two selectbox calls on lines 161 and
163, not the catalog lists, so in the lucky branch random.choice draws
a character from each selected string. -/
def regenerate_text_args (feeling_lucky : Bool) (topic style : String) (i j : Nat) :
    String × String :=
  if feeling_lucky then (randomChoice topic i, randomChoice style j)
  else (topic, style)

/-- A client whose calls all succeed and that flags nothing. -/
def okApi : Openai :=
  { moderate := fun _ => .ok false
  , complete := fun _ => .ok "A fine post about Snowflake."
  , image := fun _ => .ok "https://img.example/1.png" }

/-- A client whose completion call raises. -/
def failCompleteApi : Openai :=
  { moderate := fun _ => .ok false
  , complete := fun _ => .error "upstream failure"
  , image := fun _ => .ok "https://img.example/1.png" }

/-- A client that flags every prompt. -/
def flagApi : Openai :=
  { moderate := fun _ => .ok true
  , complete := fun _ => .ok "never reached"
  , image := fun _ => .ok "never reached" }

theorem randomChoice_length (s : String) (i : Nat) : (randomChoice s i).length = 1 := rfl

theorem string_eq_of_data {a b : String} (h : a.data = b.data) : a = b := by
  cases a; cases b; exact congrArg String.mk h

theorem data_append (a b : String) : (a ++ b).data = a.data ++ b.data := by
  cases a; cases b; rfl

theorem stripHashtagsGo_true_head (l : List Char) :
    headIsWord (stripHashtagsGo true l) = false := by
  induction l with
  | nil => rfl
  | cons c rest ih =>
      by_cases h1 : (true && isWordChar c) = true
      · rw [stripHashtagsGo, if_pos h1]; exact ih
      · by_cases h2 : (c == '#' && headIsWord rest) = true
        · rw [stripHashtagsGo, if_neg h1, if_pos h2]; exact ih
        · rw [stripHashtagsGo, if_neg h1, if_neg h2]
          show isWordChar c = false
          simpa using h1

theorem stripHashtagsGo_false_head (l : List Char)
    (h : headIsWord (stripHashtagsGo false l) = true) : headIsWord l = true := by
  cases l with
  | nil => exact absurd h (by decide)
  | cons c rest =>
      have h1 : ¬ ((false && isWordChar c) = true) := by simp
      by_cases h2 : (c == '#' && headIsWord rest) = true
      · rw [stripHashtagsGo, if_neg h1, if_pos h2] at h
        rw [stripHashtagsGo_true_head] at h
        exact absurd h (by simp)
      · rw [stripHashtagsGo, if_neg h1, if_neg h2] at h
        exact h

theorem stripHashtagsGo_no_match (b : Bool) (l : List Char) :
    hasHashtagMatch (stripHashtagsGo b l) = false := by
  induction l generalizing b with
  | nil => cases b <;> rfl
  | cons c rest ih =>
      by_cases h1 : (b && isWordChar c) = true
      · rw [stripHashtagsGo, if_pos h1]; exact ih true
      · by_cases h2 : (c == '#' && headIsWord rest) = true
        · rw [stripHashtagsGo, if_neg h1, if_pos h2]; exact ih true
        · rw [stripHashtagsGo, if_neg h1, if_neg h2]
          show ((c == '#' && headIsWord (stripHashtagsGo false rest))
              || hasHashtagMatch (stripHashtagsGo false rest)) = false
          rw [ih false, Bool.or_false]
          by_cases hc : (c == '#') = true
          · have hout : headIsWord (stripHashtagsGo false rest) = false := by
              cases hgo : headIsWord (stripHashtagsGo false rest) with
              | false => rfl
              | true =>
                  have h3 := stripHashtagsGo_false_head rest hgo
                  rw [h3, hc] at h2
                  exact absurd rfl h2
            rw [hout, Bool.and_false]
          · have hcf : (c == '#') = false := by simpa using hc
            rw [hcf, Bool.false_and]

theorem stripHashtagsGo_sublist (b : Bool) (l : List Char) :
    List.Sublist (stripHashtagsGo b l) l := by
  induction l generalizing b with
  | nil => simp [stripHashtagsGo]
  | cons c rest ih =>
      by_cases h1 : (b && isWordChar c) = true
      · rw [stripHashtagsGo, if_pos h1]
        exact List.Sublist.cons c (ih true)
      · by_cases h2 : (c == '#' && headIsWord rest) = true
        · rw [stripHashtagsGo, if_neg h1, if_pos h2]
          exact List.Sublist.cons c (ih true)
        · rw [stripHashtagsGo, if_neg h1, if_neg h2]
          exact List.Sublist.cons₂ c (ih false)

/-- C1: In both generation handlers a call made with requestCount at
least 5 sets a non-empty rate-limit error message, resets requestCount
to 1 and returns without calling the external generation client;
consequently, starting from a fresh session, five successful generation
calls bring requestCount to 5 and the sixth call is rejected with the
error set and requestCount reset to 1. -/
theorem c1_throttle_gate :
    (∀ (api : Openai) (s : SessionState) (topic style : String), s.n_requests ≥ 5 →
       (generate_text api s topic style).state.text_error ≠ "" ∧
       (generate_text api s topic style).state.n_requests = 1 ∧
       (generate_text api s topic style).calls = [] ∧
       (generate_text api s topic style).raised = false)
  ∧ (∀ (api : Openai) (s : SessionState) (prompt : String), s.n_requests ≥ 5 →
       (generate_image api s prompt).state.text_error ≠ "" ∧
       (generate_image api s prompt).state.n_requests = 1 ∧
       (generate_image api s prompt).calls = [] ∧
       (generate_image api s prompt).raised = false)
  ∧ (let s5 := (generate_image okApi
        (generate_text okApi
          (generate_image okApi
            (generate_text okApi
              (generate_text okApi initState "Snowpark" "witty").state
              "Streams" "").state
            "post text").state
          "Tasks" "bold").state
        "post text").state
     s5.n_requests = 5 ∧
     (generate_text okApi s5 "Snowpark" "witty").state.text_error ≠ "" ∧
     (generate_text okApi s5 "Snowpark" "witty").state.n_requests = 1 ∧
     (generate_text okApi s5 "Snowpark" "witty").calls = []) := by
  refine ⟨?_, ?_, ?_⟩
  · intro api s topic style h
    unfold generate_text
    rw [if_pos h]
    refine ⟨?_, rfl, rfl, rfl⟩
    show ("Too many requests. Please wait a few seconds before generating another post." : String) ≠ ""
    decide
  · intro api s prompt h
    unfold generate_image
    rw [if_pos h]
    refine ⟨?_, rfl, rfl, rfl⟩
    show ("Too many requests. Please wait a few seconds before generating another text or image." : String) ≠ ""
    decide
  · decide

/-- C1 witness: concrete gate rejections at requestCount 7 and 5. -/
theorem c1_throttle_gate_witness :
    ({ initState with n_requests := 7 } : SessionState).n_requests ≥ 5 ∧
    (generate_text okApi { initState with n_requests := 7 } "Snowpark" "").state.n_requests = 1 ∧
    (generate_image okApi { initState with n_requests := 5 } "p").state.text_error ≠ "" :=
  ⟨by decide,
   (c1_throttle_gate.1 okApi { initState with n_requests := 7 } "Snowpark" "" (by decide)).2.1,
   (c1_throttle_gate.2.1 okApi { initState with n_requests := 5 } "p" (by decide)).1⟩

/-- C2 counterexample: with a client whose completion call raises, a
generate_text run from a fresh session passes moderation, increments
requestCount from 0 to 1, and then fails upstream with no post stored;
so requestCount is incremented on a non-success path and before the
downstream call has succeeded, refuting the claim as stated. -/
theorem c2_counterexample :
    (generate_text failCompleteApi initState "Snowpark" "").raised = true ∧
    (generate_text failCompleteApi initState "Snowpark" "").state.post = "" ∧
    initState.n_requests = 0 ∧
    (generate_text failCompleteApi initState "Snowpark" "").state.n_requests = 1 := by
  decide

/-- C2 amended: requestCount is incremented exactly once per run that
reaches the final downstream call, and the increment happens before
that call (complete for text, image for image), so it also happens when
that final call fails; on gate-rejected, empty-topic, flagged and
moderation-failure paths it is not incremented. -/
theorem c2_increment_placement (api : Openai) (s : SessionState)
    (topic style prompt : String) :
    (s.n_requests < 5 → topic ≠ "" →
        api.moderate (buildTextPrompt topic style) = Except.ok false →
        (generate_text api s topic style).state.n_requests = s.n_requests + 1)
  ∧ (s.n_requests < 5 → topic ≠ "" →
        api.moderate (buildTextPrompt topic style) = Except.ok true →
        (generate_text api s topic style).state.n_requests = s.n_requests)
  ∧ (s.n_requests < 5 → topic ≠ "" → ∀ e,
        api.moderate (buildTextPrompt topic style) = Except.error e →
        (generate_text api s topic style).state.n_requests = s.n_requests ∧
        (generate_text api s topic style).raised = true)
  ∧ (s.n_requests < 5 → topic = "" →
        (generate_text api s topic style).state.n_requests = s.n_requests)
  ∧ (s.n_requests < 5 →
        ∀ reply, api.complete (imageProcessingPrompt prompt) = Except.ok reply →
        (generate_image api s prompt).state.n_requests = s.n_requests + 1)
  ∧ (s.n_requests < 5 → ∀ e,
        api.complete (imageProcessingPrompt prompt) = Except.error e →
        (generate_image api s prompt).state.n_requests = s.n_requests ∧
        (generate_image api s prompt).raised = true) := by
  refine ⟨?_, ?_, ?_, ?_, ?_, ?_⟩
  · intro h ht hm
    unfold generate_text
    rw [if_neg (by omega), if_neg ht, hm]
    cases hc : api.complete (buildTextPrompt topic style) <;> simp [hc]
  · intro h ht hm
    unfold generate_text
    rw [if_neg (by omega), if_neg ht, hm]
  · intro h ht e hm
    unfold generate_text
    rw [if_neg (by omega), if_neg ht, hm]
    exact ⟨rfl, rfl⟩
  · intro h ht
    unfold generate_text
    rw [if_neg (by omega), if_pos ht]
  · intro h reply hc
    unfold generate_image
    rw [if_neg (by omega), hc]
    cases hi : api.image (processedPrompt reply) <;> simp [hi]
  · intro h e hc
    unfold generate_image
    rw [if_neg (by omega), hc]
    exact ⟨rfl, rfl⟩

/-- C2 witness: a successful fresh-session run increments the counter
from 0 to 1. -/
theorem c2_increment_placement_witness :
    initState.n_requests < 5 ∧ ("Snowpark" : String) ≠ "" ∧
    okApi.moderate (buildTextPrompt "Snowpark" "") = Except.ok false ∧
    (generate_text okApi initState "Snowpark" "").state.n_requests = initState.n_requests + 1 :=
  ⟨by decide, by decide, rfl,
   (c2_increment_placement okApi initState "Snowpark" "" "p").1 (by decide) (by decide) rfl⟩

/-- C3 counterexample: with requestCount already at 5 and a previously
generated post in the session, the empty-topic call is rejected by the
throttle gate before the fields are cleared, and the old post survives,
refuting the claim that after every empty-topic call in any session
state the generated post is empty. -/
theorem c3_counterexample :
    (generate_text okApi
        { initState with post := "old post", image := "old.png", n_requests := 5 }
        "" "witty").state.post = "old post" ∧
    ("old post" : String) ≠ "" := by
  decide

/-- C3 amended: every generateText call with an empty topic returns an
error state (no exception), sets a non-empty text error and invokes no
external client operation; when requestCount is below 5 it also clears
the generated post; when requestCount is at least 5 the throttle gate
rejects first and the stored post and image are left unchanged. -/
theorem c3_empty_topic (api : Openai) (s : SessionState) (style : String) :
    ((generate_text api s "" style).raised = false ∧
     (generate_text api s "" style).calls = [] ∧
     (generate_text api s "" style).state.text_error ≠ "")
  ∧ (s.n_requests < 5 →
       (generate_text api s "" style).state.post = "" ∧
       (generate_text api s "" style).state.image = "" ∧
       (generate_text api s "" style).state.text_error = "Please enter a topic")
  ∧ (s.n_requests ≥ 5 →
       (generate_text api s "" style).state.post = s.post ∧
       (generate_text api s "" style).state.image = s.image) := by
  by_cases hge : s.n_requests ≥ 5
  · unfold generate_text
    rw [if_pos hge]
    refine ⟨⟨rfl, rfl, ?_⟩, fun hlt => absurd hge (by omega), fun _ => ⟨rfl, rfl⟩⟩
    show ("Too many requests. Please wait a few seconds before generating another post." : String) ≠ ""
    decide
  · unfold generate_text
    rw [if_neg hge, if_pos rfl]
    refine ⟨⟨rfl, rfl, ?_⟩, fun _ => ⟨rfl, rfl, rfl⟩, fun h => absurd h hge⟩
    show ("Please enter a topic" : String) ≠ ""
    decide

/-- C3 witness: a fresh-session empty-topic call clears the post and
sets the validation message. -/
theorem c3_empty_topic_witness :
    initState.n_requests < 5 ∧
    (generate_text okApi initState "" "witty").state.post = "" ∧
    (generate_text okApi initState "" "witty").state.text_error = "Please enter a topic" :=
  ⟨by decide,
   ((c3_empty_topic okApi initState "witty").2.1 (by decide)).1,
   ((c3_empty_topic okApi initState "witty").2.1 (by decide)).2.2⟩

/-- C4 counterexample: the prompt the code builds differs from the
template the claim asserts, both for an empty and for a non-empty
style: the f-string contributes an extra space and separates the topic
from the hashtag instruction by a colon, two newlines and a space
rather than a colon and a space. -/
theorem c4_counterexample :
    buildTextPrompt "Search Optimization" "" ≠ buildTextPromptSpec "Search Optimization" "" ∧
    buildTextPrompt "Search Optimization" "witty" ≠ buildTextPromptSpec "Search Optimization" "witty" := by
  decide

/-- C4 amended: the text prompt template is as claimed except that a
non-empty style is followed by two spaces (its own trailing space plus
the space of the template), an empty style leaves two spaces between
the word a and the word LinkedIn, and the hashtag instruction is
separated by a colon, two newlines and a space. -/
theorem c4_text_prompt (topic style : String) :
    (style = "" →
        buildTextPrompt topic style =
          "Write a  LinkedIn Post about the Snowflake data platform feature " ++ topic
            ++ ":\n\n include the hashtags datasuperhero and masteringsnowflake")
  ∧ (style ≠ "" →
        buildTextPrompt topic style =
          "Write a " ++ style ++ " " ++ " LinkedIn Post about the Snowflake data platform feature " ++ topic
            ++ ":\n\n include the hashtags datasuperhero and masteringsnowflake")
  ∧ buildTextPrompt "Search Optimization" "" =
      "Write a  LinkedIn Post about the Snowflake data platform feature Search Optimization:\n\n include the hashtags datasuperhero and masteringsnowflake"
  ∧ buildTextPrompt "Search Optimization" "witty" =
      "Write a witty  LinkedIn Post about the Snowflake data platform feature Search Optimization:\n\n include the hashtags datasuperhero and masteringsnowflake" := by
  refine ⟨?_, ?_, by decide, by decide⟩
  · intro h
    subst h
    unfold buildTextPrompt
    rw [if_neg (by simp)]
    apply string_eq_of_data
    simp [data_append, List.append_assoc]
  · intro h
    unfold buildTextPrompt
    rw [if_pos h]
    apply string_eq_of_data
    simp [data_append, List.append_assoc]

/-- C4 witness: instantiation of the amended template at a non-empty
style. -/
theorem c4_text_prompt_witness :
    ("witty" : String) ≠ "" ∧
    buildTextPrompt "Snowpark" "witty" =
      "Write a " ++ "witty" ++ " " ++ " LinkedIn Post about the Snowflake data platform feature " ++ "Snowpark"
        ++ ":\n\n include the hashtags datasuperhero and masteringsnowflake" :=
  ⟨by decide, (c4_text_prompt "Snowpark" "witty").2.1 (by decide)⟩

/-- C5: In every generate_text run every completion call in the trace
is preceded by a moderation call on the same prompt (the moderation
call heads the trace), and a flagged moderation result terminates the
request as an error: no completion call is made, requestCount is
unchanged and no post is stored. -/
theorem c5_moderate_before_complete (api : Openai) (s : SessionState) (topic style : String) :
    (∀ p, ApiCall.complete p ∈ (generate_text api s topic style).calls →
        (generate_text api s topic style).calls.head? = some (ApiCall.moderate p))
  ∧ (api.moderate (buildTextPrompt topic style) = Except.ok true →
        s.n_requests < 5 → topic ≠ "" →
        (generate_text api s topic style).state.text_error = "Input flagged as inappropriate." ∧
        (generate_text api s topic style).raised = false ∧
        (∀ p, ApiCall.complete p ∉ (generate_text api s topic style).calls) ∧
        (generate_text api s topic style).state.n_requests = s.n_requests ∧
        (generate_text api s topic style).state.post = "") := by
  constructor
  · intro p hp
    by_cases hge : s.n_requests ≥ 5
    · unfold generate_text at hp
      rw [if_pos hge] at hp
      simp at hp
    · by_cases ht : topic = ""
      · unfold generate_text at hp
        rw [if_neg hge, if_pos ht] at hp
        simp at hp
      · unfold generate_text at hp ⊢
        rw [if_neg hge, if_neg ht] at hp ⊢
        cases hm : api.moderate (buildTextPrompt topic style) with
        | error e =>
            rw [hm] at hp
            simp at hp
        | ok b =>
            cases b with
            | true =>
                rw [hm] at hp
                simp at hp
            | false =>
                rw [hm] at hp
                cases hc : api.complete (buildTextPrompt topic style) with
                | error e =>
                    rw [hc] at hp
                    simp at hp
                    simp [hp]
                | ok reply =>
                    rw [hc] at hp
                    simp at hp
                    simp [hp]
  · intro hm hlt ht
    unfold generate_text
    rw [if_neg (by omega), if_neg ht, hm]
    refine ⟨rfl, rfl, ?_, rfl, rfl⟩
    intro p
    simp

/-- C5 witness: a flagging client on a fresh session yields the flagged
error and leaves the counter unchanged. -/
theorem c5_moderate_before_complete_witness :
    flagApi.moderate (buildTextPrompt "Snowpark" "") = Except.ok true ∧
    initState.n_requests < 5 ∧ ("Snowpark" : String) ≠ "" ∧
    (generate_text flagApi initState "Snowpark" "").state.text_error = "Input flagged as inappropriate." ∧
    (generate_text flagApi initState "Snowpark" "").state.n_requests = initState.n_requests :=
  ⟨rfl, by decide, by decide,
   ((c5_moderate_before_complete flagApi initState "Snowpark" "").2 rfl (by decide) (by decide)).1,
   ((c5_moderate_before_complete flagApi initState "Snowpark" "").2 rfl (by decide) (by decide)).2.2.2.1⟩

/-- C6: generate_image builds its processing prompt from the post text
with every hashtag occurrence removed (no hashtag pattern match remains
in the stripped text, and the stripped text is a sublist of the input),
sends that prompt to the completion operation, and passes to the image
operation exactly the first period-delimited segment of the cleaned
completion reply with its period restored (the first sentence). -/
theorem c6_image_prompt (api : Openai) (s : SessionState) (postText : String)
    (h : s.n_requests < 5) :
    hasHashtagMatch (stripHashtags postText).toList = false
  ∧ List.Sublist (stripHashtags postText).toList postText.toList
  ∧ ApiCall.complete (imageProcessingPrompt postText) ∈ (generate_image api s postText).calls
  ∧ (∀ reply p, api.complete (imageProcessingPrompt postText) = Except.ok reply →
        ApiCall.image p ∈ (generate_image api s postText).calls →
        p = firstSegment (cleanReply reply) ++ "." ∧
        (∀ c ∈ (firstSegment (cleanReply reply)).toList, ¬ c = '.') ∧
        (∃ rest, (cleanReply reply).toList = (firstSegment (cleanReply reply)).toList ++ rest)) := by
  have hge : ¬ (s.n_requests ≥ 5) := by omega
  refine ⟨stripHashtagsGo_no_match false postText.toList,
    stripHashtagsGo_sublist false postText.toList, ?_, ?_⟩
  · unfold generate_image
    rw [if_neg hge]
    cases hc : api.complete (imageProcessingPrompt postText) with
    | error e => simp
    | ok r => cases hi : api.image (processedPrompt r) <;> simp [hi]
  · intro reply p hok hmem
    unfold generate_image at hmem
    rw [if_neg hge, hok] at hmem
    have hp : p = processedPrompt reply := by
      cases hi : api.image (processedPrompt reply) <;> simpa [hi] using hmem
    subst hp
    refine ⟨rfl, ?_, ?_⟩
    · intro c hcmem
      have hc := List.mem_takeWhile_imp hcmem
      simpa using hc
    · exact ⟨(cleanReply reply).toList.dropWhile (fun c => !(c == '.')),
        (List.takeWhile_append_dropWhile (fun c => !(c == '.')) (cleanReply reply).toList).symm⟩

/-- C6 witness: a concrete post text with two hashtags, stripped and
sent on a fresh session. -/
theorem c6_image_prompt_witness :
    initState.n_requests < 5 ∧
    hasHashtagMatch (stripHashtags "Great post #datasuperhero and #masteringsnowflake here. End.").toList = false ∧
    stripHashtags "Great post #datasuperhero and #masteringsnowflake here. End." = "Great post  and  here. End." ∧
    ApiCall.complete (imageProcessingPrompt "Great post #datasuperhero and #masteringsnowflake here. End.") ∈
      (generate_image okApi initState "Great post #datasuperhero and #masteringsnowflake here. End.").calls :=
  ⟨by decide,
   (c6_image_prompt okApi initState "Great post #datasuperhero and #masteringsnowflake here. End." (by decide)).1,
   by decide,
   (c6_image_prompt okApi initState "Great post #datasuperhero and #masteringsnowflake here. End." (by decide)).2.2.1⟩

/-- C7: the catalog loader is memoized: a second loadColumn call with
the same table name returns the same column and performs no further
external query; on a fresh name exactly one query runs and the result
is the first column of all rows of the named table. -/
theorem c7_catalog_memoized (db : String → List Row) (cs : CacheState) (name : String) :
    (loadColumn db cs name).1 = (loadColumn db (loadColumn db cs name).2 name).1
  ∧ (loadColumn db (loadColumn db cs name).2 name).2 = (loadColumn db cs name).2
  ∧ (findCache cs.cache name = none →
        (loadColumn db cs name).2.queries = cs.queries ++ [name] ∧
        (loadColumn db cs name).1 = (db name).map (fun r => r.headD ""))
  ∧ (∀ rows, findCache cs.cache name = some rows →
        (loadColumn db cs name).2.queries = cs.queries ∧
        (loadColumn db cs name).1 = rows.map (fun r => r.headD "")) := by
  cases hf : findCache cs.cache name with
  | none =>
      refine ⟨?_, ?_, fun _ => ⟨?_, ?_⟩, fun rows hr => ?_⟩
      · simp [loadColumn, load_sf_data, hf, findCache]
      · simp [loadColumn, load_sf_data, hf, findCache]
      · simp [loadColumn, load_sf_data, hf]
      · simp [loadColumn, load_sf_data, hf]
      · exact Option.noConfusion hr
  | some rows =>
      have hid : loadColumn db cs name = (rows.map (fun r => r.headD ""), cs) := by
        simp [loadColumn, load_sf_data, hf]
      refine ⟨?_, ?_, fun hn => ?_, fun rows2 hr => ?_⟩
      · simp [hid]
      · simp [hid]
      · exact Option.noConfusion hn
      · injection hr with hrows
        subst hrows
        simp [hid]

/-- C7 witness: a fresh cache, one query performed, first column
returned; the repeated call returns the same column. -/
theorem c7_catalog_memoized_witness :
    findCache (CacheState.mk [] []).cache "snowflake_features" = none ∧
    (loadColumn (fun _ => [["Snowpark"], ["Streams"]]) (CacheState.mk [] []) "snowflake_features").1 = ["Snowpark", "Streams"] ∧
    (loadColumn (fun _ => [["Snowpark"], ["Streams"]]) (CacheState.mk [] []) "snowflake_features").2.queries = ["snowflake_features"] ∧
    (loadColumn (fun _ => [["Snowpark"], ["Streams"]]) (CacheState.mk [] [])
      "snowflake_features").1 =
      (loadColumn (fun _ => [["Snowpark"], ["Streams"]])
        (loadColumn (fun _ => [["Snowpark"], ["Streams"]]) (CacheState.mk [] []) "snowflake_features").2
        "snowflake_features").1 := by
  have h := c7_catalog_memoized (fun _ => [["Snowpark"], ["Streams"]]) (CacheState.mk [] []) "snowflake_features"
  have h3 := h.2.2.1 rfl
  exact ⟨rfl, h3.2.trans (by decide), h3.1.trans (by decide), h.1⟩

/-- C8: the regeneration bug: when feelingLucky is set, the Regenerate
text button passes random.choice of the selected topic and style
strings, which is a single character of each and never an element of
the topic catalog; with feelingLucky unset it passes the selection
unchanged. -/
theorem c8_regenerate_random_character (i j : Nat) :
    (regenerate_text_args true "Snowpark" "witty" i j).1.length = 1
  ∧ (regenerate_text_args true "Snowpark" "witty" i j).2.length = 1
  ∧ (regenerate_text_args true "Snowpark" "witty" i j).1 ∉
      (["Snowpark", "Streams", "Search Optimization"] : List String)
  ∧ regenerate_text_args false "Snowpark" "witty" i j = ("Snowpark", "witty") := by
  refine ⟨rfl, rfl, ?_, rfl⟩
  intro hmem
  have h1 : (regenerate_text_args true "Snowpark" "witty" i j).1 = randomChoice "Snowpark" i := rfl
  rw [h1] at hmem
  rcases List.mem_cons.mp hmem with h | hmem
  · have h2 := congrArg String.length h
    rw [randomChoice_length] at h2
    exact absurd h2 (by decide)
  rcases List.mem_cons.mp hmem with h | hmem
  · have h2 := congrArg String.length h
    rw [randomChoice_length] at h2
    exact absurd h2 (by decide)
  rcases List.mem_cons.mp hmem with h | hmem
  · have h2 := congrArg String.length h
    rw [randomChoice_length] at h2
    exact absurd h2 (by decide)
  · exact absurd hmem (List.not_mem_nil _)

/-- C9: when the throttle gate passes, generate_text clears the stored
post, image and text error before validating the topic, so an
empty-topic rejection also erases the previous post and image, while a
gate rejection leaves the stored post and image unchanged. -/
theorem c9_clear_then_validate (api : Openai) (s : SessionState) (topic style : String) :
    (s.n_requests < 5 → (generate_text api s topic style).state.image = "")
  ∧ (s.n_requests < 5 → topic = "" →
        (generate_text api s topic style).state.post = "" ∧
        (generate_text api s topic style).state.image = "" ∧
        (generate_text api s topic style).state.text_error = "Please enter a topic")
  ∧ (s.n_requests ≥ 5 →
        (generate_text api s topic style).state.post = s.post ∧
        (generate_text api s topic style).state.image = s.image) := by
  by_cases hge : s.n_requests ≥ 5
  · refine ⟨fun hlt => absurd hge (by omega), fun hlt _ => absurd hge (by omega), fun _ => ?_⟩
    unfold generate_text
    rw [if_pos hge]
    exact ⟨rfl, rfl⟩
  · refine ⟨fun _ => ?_, fun _ ht => ?_, fun hge2 => absurd hge2 hge⟩
    · unfold generate_text
      rw [if_neg hge]
      by_cases ht : topic = ""
      · rw [if_pos ht]
      · rw [if_neg ht]
        cases hm : api.moderate (buildTextPrompt topic style) with
        | error e => rfl
        | ok b =>
            cases b with
            | true => rfl
            | false => cases hc : api.complete (buildTextPrompt topic style) <;> rfl
    · unfold generate_text
      rw [if_neg hge, if_pos ht]
      exact ⟨rfl, rfl, rfl⟩

/-- C9 witness: an empty-topic call on a session holding an old post
and image erases both. -/
theorem c9_clear_then_validate_witness :
    ({ initState with post := "p", image := "i" } : SessionState).n_requests < 5 ∧
    (generate_text okApi { initState with post := "p", image := "i" } "" "w").state.post = "" ∧
    (generate_text okApi { initState with post := "p", image := "i" } "" "w").state.image = "" :=
  ⟨by decide,
   ((c9_clear_then_validate okApi { initState with post := "p", image := "i" } "" "w").2.1 (by decide) rfl).1,
   ((c9_clear_then_validate okApi { initState with post := "p", image := "i" } "" "w").2.1 (by decide) rfl).2.1⟩

/-- C10: the imageError field is empty initially and never assigned by
either handler, so imageError stays whatever it was (in particular the
empty string) across every run; the rate-limit rejection of
generate_image writes its message into the text error field, not the
image error field. -/
theorem c10_image_error_invariant (api : Openai) (s : SessionState)
    (topic style prompt : String) :
    initState.image_error = ""
  ∧ (generate_text api s topic style).state.image_error = s.image_error
  ∧ (generate_image api s prompt).state.image_error = s.image_error
  ∧ (s.n_requests ≥ 5 →
        (generate_image api s prompt).state.text_error =
          "Too many requests. Please wait a few seconds before generating another text or image." ∧
        (generate_image api s prompt).state.text_error ≠ "" ∧
        (generate_image api s prompt).state.image_error = s.image_error) := by
  refine ⟨rfl, ?_, ?_, ?_⟩
  · by_cases hge : s.n_requests ≥ 5
    · unfold generate_text
      rw [if_pos hge]
    · unfold generate_text
      rw [if_neg hge]
      by_cases ht : topic = ""
      · rw [if_pos ht]
      · rw [if_neg ht]
        cases hm : api.moderate (buildTextPrompt topic style) with
        | error e => rfl
        | ok b =>
            cases b with
            | true => rfl
            | false => cases hc : api.complete (buildTextPrompt topic style) <;> rfl
  · by_cases hge : s.n_requests ≥ 5
    · unfold generate_image
      rw [if_pos hge]
    · unfold generate_image
      rw [if_neg hge]
      cases hc : api.complete (imageProcessingPrompt prompt) with
      | error e => rfl
      | ok reply => cases hi : api.image (processedPrompt reply) <;> simp [hi]
  · intro hge
    unfold generate_image
    rw [if_pos hge]
    refine ⟨rfl, ?_, rfl⟩
    show ("Too many requests. Please wait a few seconds before generating another text or image." : String) ≠ ""
    decide

/-- C10 witness: a gate-rejected image call sets the text error and
leaves the image error untouched. -/
theorem c10_image_error_invariant_witness :
    ({ initState with n_requests := 6 } : SessionState).n_requests ≥ 5 ∧
    (generate_image okApi { initState with n_requests := 6 } "p").state.text_error ≠ "" ∧
    (generate_image okApi { initState with n_requests := 6 } "p").state.image_error =
      ({ initState with n_requests := 6 } : SessionState).image_error :=
  ⟨by decide,
   ((c10_image_error_invariant okApi { initState with n_requests := 6 } "t" "s" "p").2.2.2 (by decide)).2.1,
   ((c10_image_error_invariant okApi { initState with n_requests := 6 } "t" "s" "p").2.2.2 (by decide)).2.2⟩
